import Mathlib

/-!
Shallow embedding of the `atty` stream-classification crate (src/lib.rs).

The crate answers one question per standard stream: is it attached to a
terminal?  It has four platform families, selected at build time:
  * unix (`libc::isatty`),
  * hermit (`hermit_abi::isatty`),
  * windows (`GetConsoleMode` on the requested handle, then on the other two,
    then the msys/cygwin file-name heuristic via
    `GetFileInformationByHandleEx`),
  * the sandboxed targets wasm32 and sgx (constant `false`).

Native calls are modelled as fields of an OS-state structure; each embedded
function is a pure function of that state, mirroring the source line by line.
A Rust `panic` (out-of-bounds slice) is modelled as `Option.none`.
-/

namespace Atty

/-- The `Stream` enum of src/lib.rs: possible stream sources. -/
inductive Stream where
  | Stdout
  | Stderr
  | Stdin
deriving DecidableEq, Repr

/-! ## Unix family (`#[cfg(all(unix, not(target_arch = "wasm32")))]`) -/

/-- `libc::STDIN_FILENO`. -/
def STDIN_FILENO : Int := 0

/-- `libc::STDOUT_FILENO`. -/
def STDOUT_FILENO : Int := 1

/-- `libc::STDERR_FILENO`. -/
def STDERR_FILENO : Int := 2

/-- The externally owned unix OS state: `isatty` is the C return value of
`libc::isatty(fd)` (an `int`; nonzero means tty, `0` means not a tty or a
failing call on a closed or invalid descriptor). -/
structure UnixOS where
  isatty : Int → Int

/-- The `fd` computed by the `match` at the top of the unix `is`. -/
def fileno : Stream → Int
  | Stream.Stdout => STDOUT_FILENO
  | Stream.Stderr => STDERR_FILENO
  | Stream.Stdin => STDIN_FILENO

/-- The unix `is`: `libc::isatty(fd) != 0`. -/
def is_unix (os : UnixOS) (stream : Stream) : Bool :=
  os.isatty (fileno stream) != 0

/-- The hermit OS state (`#[cfg(target_os = "hermit")]`):
`hermit_abi::isatty` returns a `bool` directly. -/
structure HermitOS where
  isatty : Int → Bool

/-- The hermit `is`: `hermit_abi::isatty(fd)`. -/
def is_hermit (os : HermitOS) (stream : Stream) : Bool :=
  os.isatty (fileno stream)

/-! ## Windows family (`#[cfg(windows)]`) -/

/-- `STD_INPUT_HANDLE` = `(DWORD)-10`. -/
def STD_INPUT : Nat := 4294967286

/-- `STD_OUTPUT_HANDLE` = `(DWORD)-11`. -/
def STD_OUTPUT : Nat := 4294967285

/-- `STD_ERROR_HANDLE` = `(DWORD)-12`. -/
def STD_ERROR : Nat := 4294967284

/-- `windows_sys::Win32::Foundation::MAX_PATH`. -/
def MAX_PATH : Nat := 260

/-- The stack-allocated `FILE_NAME_INFO` struct as filled in by a successful
`GetFileInformationByHandleEx(.., FileNameInfo, ..)` call: a reported length
(`u32`, a byte count in the Windows ABI) and the `[u16; MAX_PATH]` buffer of
UTF-16 code units. -/
structure FILE_NAME_INFO where
  FileNameLength : Nat
  FileName : List Nat

/-- The externally owned Windows OS state.
`consoleModeOk fd` models `GetConsoleMode(GetStdHandle(fd), &mut out) != 0`:
whether the console-mode query succeeds on the standard handle `fd`.
`fileNameInfo fd` models `GetFileInformationByHandleEx` on
`GetStdHandle(fd)`: `none` when the call fails (returns 0), otherwise the
`FILE_NAME_INFO` it wrote into the caller's buffer. -/
structure WinOS where
  consoleModeOk : Nat → Bool
  fileNameInfo : Nat → Option FILE_NAME_INFO

/-- `console_on_any`: true if any of the given fds are on a console
(the `for` loop returns on the first success). -/
def console_on_any (os : WinOS) : List Nat → Bool
  | [] => false
  | fd :: fds => if os.consoleModeOk fd then true else console_on_any os fds

/-- The `(fd, others)` pair computed by the `match` at the top of the
windows `is`. -/
def handles : Stream → Nat × List Nat
  | Stream.Stdin => (STD_INPUT, [STD_ERROR, STD_OUTPUT])
  | Stream.Stderr => (STD_ERROR, [STD_INPUT, STD_OUTPUT])
  | Stream.Stdout => (STD_OUTPUT, [STD_INPUT, STD_ERROR])

/-- `String::from_utf16_lossy` on a list of `u16` code units, producing the
list of Unicode code points: a high surrogate followed by a low surrogate
decodes to one supplementary code point, an unpaired surrogate becomes
U+FFFD, and every other unit is its own code point. -/
def from_utf16_lossy : List Nat → List Nat
  | [] => []
  | [u] =>
      if 0xD800 ≤ u && u ≤ 0xDFFF then [0xFFFD] else [u]
  | u :: v :: rest =>
      if 0xD800 ≤ u && u ≤ 0xDBFF then
        if 0xDC00 ≤ v && v ≤ 0xDFFF then
          (0x10000 + (u - 0xD800) * 0x400 + (v - 0xDC00)) ::
            from_utf16_lossy rest
        else
          0xFFFD :: from_utf16_lossy (v :: rest)
      else if 0xDC00 ≤ u && u ≤ 0xDFFF then
        0xFFFD :: from_utf16_lossy (v :: rest)
      else
        u :: from_utf16_lossy (v :: rest)

/-- `str::starts_with` on code-point lists: the second list is a prefix of
the first. -/
def startsWith : List Nat → List Nat → Bool
  | _, [] => true
  | [], _ :: _ => false
  | h :: hs, p :: ps => h == p && startsWith hs ps

/-- `str::contains` on code-point lists: the second list occurs as a
contiguous subsequence of the first, at any position. -/
def containsSeq : List Nat → List Nat → Bool
  | [], pat => startsWith [] pat
  | h :: hs, pat => startsWith (h :: hs) pat || containsSeq hs pat

/-- The code points of the string literal `"msys-"`. -/
def msysMarker : List Nat := [109, 115, 121, 115, 45]

/-- The code points of the string literal `"cygwin-"`. -/
def cygwinMarker : List Nat := [99, 121, 103, 119, 105, 110, 45]

/-- The code points of the string literal `"-pty"`. -/
def ptyMarker : List Nat := [45, 112, 116, 121]

/-- The decoded name inspected by `msys_tty_on` on the success path:
`String::from_utf16_lossy(&name_info.FileName[..name_info.FileNameLength])`. -/
def probedName (info : FILE_NAME_INFO) : List Nat :=
  from_utf16_lossy (info.FileName.take info.FileNameLength)

/-- `msys_tty_on(fd)`: returns whether there is an MSYS tty on the given
handle.  A failing `GetFileInformationByHandleEx` (`res == 0`) yields
`false`.  On success the source slices
`&name_info.FileName[..name_info.FileNameLength as usize]`; a Rust range
slice panics when the end exceeds the array length, which the embedding
renders as `none`.  Otherwise the lossily decoded name is searched for the
`"msys-"`/`"cygwin-"` and `"-pty"` markers. -/
def msys_tty_on (os : WinOS) (fd : Nat) : Option Bool :=
  match os.fileNameInfo fd with
  | none => some false
  | some name_info =>
      if name_info.FileNameLength ≤ name_info.FileName.length then
        let name := from_utf16_lossy
          (name_info.FileName.take name_info.FileNameLength)
        let is_msys := containsSeq name msysMarker ||
          containsSeq name cygwinMarker
        let is_pty := containsSeq name ptyMarker
        some (is_msys && is_pty)
      else
        none

/-- The windows `is`: console mode on the requested handle is a conclusive
true; console mode on either of the other two streams makes the first
failure a trusted negative; otherwise fall back to `msys_tty_on`.
`none` models a panic escaping the call. -/
def is_windows (os : WinOS) (stream : Stream) : Option Bool :=
  let fd := (handles stream).1
  let others := (handles stream).2
  if console_on_any os [fd] then
    some true
  else if console_on_any os others then
    some false
  else
    msys_tty_on os fd

/-! ## The public predicate across the platform families -/

/-- The platform family fixed at build time, together with the externally
owned OS state its native calls read. -/
inductive Platform where
  | unix (os : UnixOS)
  | hermit (os : HermitOS)
  | windows (os : WinOS)
  | wasm32
  | sgx

/-- The public `is(stream) -> bool` of the crate, one `#[cfg]` variant per
platform family; the wasm32/sgx variant is the hard-coded `false`.
`none` models a panic escaping the call. -/
def is : Platform → Stream → Option Bool
  | Platform.unix os, stream => some (is_unix os stream)
  | Platform.hermit os, stream => some (is_hermit os stream)
  | Platform.windows os, stream => is_windows os stream
  | Platform.wasm32, _ => some false
  | Platform.sgx, _ => some false

/-- The public `isnt(stream) -> bool`: `!is(stream)` (a panic in `is`
propagates). -/
def isnt (p : Platform) (stream : Stream) : Option Bool :=
  (is p stream).map Bool.not

/-! ## Helper lemmas -/

/-- `startsWith` decides `List.IsPrefix`. -/
theorem startsWith_iff : ∀ (hay pat : List Nat),
    startsWith hay pat = true ↔ pat <+: hay
  | _, [] => by simp [startsWith]
  | [], _ :: _ => by simp [startsWith]
  | h :: hs, p :: ps => by
      rw [startsWith, Bool.and_eq_true, beq_iff_eq, startsWith_iff hs ps,
        List.cons_prefix_cons]
      exact and_congr_left fun _ => eq_comm

/-- `containsSeq` decides `List.IsInfix`. -/
theorem containsSeq_iff : ∀ (hay pat : List Nat),
    containsSeq hay pat = true ↔ pat <:+: hay
  | [], pat => by
      cases pat <;> simp [containsSeq, startsWith]
  | h :: hs, pat => by
      rw [containsSeq, Bool.or_eq_true, startsWith_iff, containsSeq_iff hs pat]
      exact ( List.infix_cons_iff).symm

/-- `containsSeq` as a `decide` of `List.IsInfix`. -/
theorem containsSeq_eq_decide (hay pat : List Nat) :
    containsSeq hay pat = decide (pat <:+: hay) := by
  by_cases h : pat <:+: hay
  · rw [(containsSeq_iff hay pat).mpr h, decide_eq_true h]
  · rw [decide_eq_false h, Bool.eq_false_iff]
    intro hc
    exact h ((containsSeq_iff hay pat).mp hc)

/-- `console_on_any` succeeds exactly when the console-mode query succeeds
on at least one of the given fds. -/
theorem console_on_any_iff (os : WinOS) : ∀ (fds : List Nat),
    console_on_any os fds = true ↔ ∃ fd ∈ fds, os.consoleModeOk fd = true
  | [] => by simp [console_on_any]
  | fd :: fds => by
      by_cases h : os.consoleModeOk fd = true <;>
        simp [console_on_any, h, console_on_any_iff os fds]

/-- When the console-mode query fails on all three standard handles, the
windows `is` reaches the fallback heuristic on the requested handle. -/
theorem is_windows_all_fail (os : WinOS) (stream : Stream)
    (hin : os.consoleModeOk STD_INPUT = false)
    (hout : os.consoleModeOk STD_OUTPUT = false)
    (herr : os.consoleModeOk STD_ERROR = false) :
    is (Platform.windows os) stream = msys_tty_on os (handles stream).1 := by
  show is_windows os stream = msys_tty_on os (handles stream).1
  rw [is_windows]
  cases stream <;> simp [handles, console_on_any, hin, hout, herr]

/-- Evaluation of `msys_tty_on` when the file-name query succeeds and the
reported length fits the buffer. -/
theorem msys_tty_on_eval (os : WinOS) (fd : Nat) (info : FILE_NAME_INFO)
    (hinfo : os.fileNameInfo fd = some info)
    (hlen : info.FileNameLength ≤ info.FileName.length) :
    msys_tty_on os fd =
      some ((containsSeq (probedName info) msysMarker ||
        containsSeq (probedName info) cygwinMarker) &&
        containsSeq (probedName info) ptyMarker) := by
  simp [msys_tty_on, hinfo, hlen, probedName]

/-- When the console-mode query fails on the requested handle but
`console_on_any` succeeds on the other two, the windows `is` returns
`some false` without reaching `msys_tty_on`. -/
theorem is_windows_other (os : WinOS) (stream : Stream)
    (hreq : os.consoleModeOk (handles stream).1 = false)
    (hother : console_on_any os (handles stream).2 = true) :
    is (Platform.windows os) stream = some false := by
  show is_windows os stream = some false
  rw [is_windows]
  simp [console_on_any, hreq, hother]

/-! ## Concrete OS states used as witnesses -/

/-- Code points of the file name
`"\msys-dd50a72ab4668b33-pty0-from-master"` reported by a typical MSYS2
pseudo-terminal pipe. -/
def msysPtyName : List Nat :=
  [92, 109, 115, 121, 115, 45, 100, 100, 53, 48, 97, 55, 50, 97, 98, 52,
   54, 54, 56, 98, 51, 51, 45, 112, 116, 121, 48, 45, 102, 114, 111, 109,
   45, 109, 97, 115, 116, 101, 114]

/-- Code points of the file name `"\cygwin-ab12cd-pty3-to-master"`: the
`cygwin-` marker sits at position 1 (not a prefix of the name) and `-pty`
sits mid-string (not a suffix). -/
def cygwinPtyName : List Nat :=
  [92, 99, 121, 103, 119, 105, 110, 45, 97, 98, 49, 50, 99, 100, 45, 112,
   116, 121, 51, 45, 116, 111, 45, 109, 97, 115, 116, 101, 114]

/-- A Windows state where every console-mode query fails and every
file-name query reports the MSYS pty name. -/
def osMsysPty : WinOS :=
  { consoleModeOk := fun _ => false
    fileNameInfo := fun _ =>
      some { FileNameLength := msysPtyName.length, FileName := msysPtyName } }

/-- A Windows state where every console-mode query fails and every
file-name query reports the mid-string cygwin pty name. -/
def osCygwinPty : WinOS :=
  { consoleModeOk := fun _ => false
    fileNameInfo := fun _ =>
      some { FileNameLength := cygwinPtyName.length
             FileName := cygwinPtyName } }

/-- A Windows state where only the stdout handle is on a console. -/
def osStdoutConsole : WinOS :=
  { consoleModeOk := fun fd => fd == STD_OUTPUT
    fileNameInfo := fun _ => none }

/-- A Windows state where only the stderr handle is on a console, while the
file-name query would report the MSYS pty name. -/
def osStderrConsole : WinOS :=
  { consoleModeOk := fun fd => fd == STD_ERROR
    fileNameInfo := fun _ =>
      some { FileNameLength := msysPtyName.length, FileName := msysPtyName } }

/-- A Windows state where every console-mode query fails and every
file-name query itself fails. -/
def osNoInfo : WinOS :=
  { consoleModeOk := fun _ => false
    fileNameInfo := fun _ => none }

/-- A Windows state where every console-mode query fails and the file-name
query succeeds but reports a `FileNameLength` of 400 bytes — a
200-character file name, which `GetFileInformationByHandleEx` can
legitimately report since the 524-byte buffer holds it — exceeding the
260-element `FileName` array. -/
def osOverflow : WinOS :=
  { consoleModeOk := fun _ => false
    fileNameInfo := fun _ =>
      some { FileNameLength := 400, FileName := List.replicate MAX_PATH 0 } }

/-! ## Claims -/

/-- C1: on a Windows-family host, when the console-mode query has failed
for all three standard streams, the file-name heuristic returns true iff
the name bound to the requested handle contains both the `"-pty"`
pseudo-terminal marker and one of the two bridge markers `"msys-"` or
`"cygwin-"`; `"-pty"` alone yields false. -/
theorem both_markers_required (os : WinOS) (stream : Stream)
    (info : FILE_NAME_INFO)
    (hin : os.consoleModeOk STD_INPUT = false)
    (hout : os.consoleModeOk STD_OUTPUT = false)
    (herr : os.consoleModeOk STD_ERROR = false)
    (hinfo : os.fileNameInfo (handles stream).1 = some info)
    (hlen : info.FileNameLength ≤ info.FileName.length) :
    is (Platform.windows os) stream =
      some (decide ((ptyMarker <:+: probedName info) ∧
        ((msysMarker <:+: probedName info) ∨
          (cygwinMarker <:+: probedName info)))) := by
  rw [is_windows_all_fail os stream hin hout herr,
    msys_tty_on_eval os (handles stream).1 info hinfo hlen,
    containsSeq_eq_decide, containsSeq_eq_decide, containsSeq_eq_decide,
    Bool.decide_and, Bool.decide_or, Bool.and_comm]

set_option maxRecDepth 8192 in
/-- Witness for C1: with all console-mode queries failing and the name
`"\msys-dd50a72ab4668b33-pty0-from-master"` reported, `is` returns true. -/
theorem both_markers_required_w :
    is (Platform.windows osMsysPty) Stream.Stdout = some true := by
  rw [both_markers_required osMsysPty Stream.Stdout
    { FileNameLength := msysPtyName.length, FileName := msysPtyName }
    rfl rfl rfl rfl (by decide)]
  decide

set_option maxRecDepth 8192 in
/-- C2 (refuted by the code, supporting the code_bug verdict): the claim
says no file-name-info outcome — including a reported name length
exceeding the fixed buffer capacity — can make `is` abort or panic.  But
`msys_tty_on` slices `&name_info.FileName[..name_info.FileNameLength]`,
and with all console-mode queries failing and a reported length of 400
(bytes, per the Windows ABI) over the 260-element buffer, the slice
bound exceeds the array length and the call panics (`none`). -/
theorem overlong_name_aborts :
    is (Platform.windows osOverflow) Stream.Stdout = none := by
  decide

/-- C3: `isnt(selector)` is the logical negation of `is(selector)`, on
every platform family. -/
theorem isnt_negates_is (p : Platform) (stream : Stream) (b : Bool)
    (h : is p stream = some b) :
    isnt p stream = some (!b) := by
  rw [isnt, h]
  rfl

/-- Witness for C3: on the wasm32 target, `is` is false and `isnt` is
true. -/
theorem isnt_negates_is_w :
    isnt Platform.wasm32 Stream.Stdout = some true :=
  isnt_negates_is Platform.wasm32 Stream.Stdout false rfl

/-- C4: on a Windows-family host, a successful console-mode query on the
requested handle makes `is` return true, whatever the state of the other
two streams and of the file-name query. -/
theorem console_success_true (os : WinOS) (stream : Stream)
    (h : os.consoleModeOk (handles stream).1 = true) :
    is (Platform.windows os) stream = some true := by
  show is_windows os stream = some true
  rw [is_windows]
  simp [console_on_any, h]

/-- Witness for C4: only the stdout handle is on a console (the other two
queries fail), and `is Stdout` is true. -/
theorem console_success_true_w :
    is (Platform.windows osStdoutConsole) Stream.Stdout = some true :=
  console_success_true osStdoutConsole Stream.Stdout (by decide)

/-- C5: on a Windows-family host, when the console-mode query fails on the
requested handle but succeeds on at least one of the other two streams,
`is` returns false; and the file-name heuristic is not consulted — the
result stays false whatever `fileNameInfo` is replaced with. -/
theorem other_console_false (os : WinOS) (stream : Stream)
    (hreq : os.consoleModeOk (handles stream).1 = false)
    (hother : ∃ fd ∈ (handles stream).2, os.consoleModeOk fd = true) :
    is (Platform.windows os) stream = some false ∧
      ∀ fni, is (Platform.windows
        { consoleModeOk := os.consoleModeOk, fileNameInfo := fni }) stream =
        some false := by
  refine ⟨is_windows_other os stream hreq ?_,
    fun fni => is_windows_other _ stream hreq ?_⟩
  · exact (console_on_any_iff os _).mpr hother
  · exact (console_on_any_iff _ _).mpr hother

/-- Witness for C5: stdout's query fails, stderr's succeeds, and the
file-name query would even report an MSYS pty name — yet `is Stdout` is
false. -/
theorem other_console_false_w :
    is (Platform.windows osStderrConsole) Stream.Stdout = some false :=
  (other_console_false osStderrConsole Stream.Stdout (by decide)
    ⟨STD_ERROR, by decide, by decide⟩).1

/-- C6: on a Windows-family host, if the file-name-info native call itself
fails (e.g. for an invalid handle), the heuristic — and hence `is` on the
all-queries-failed path — returns false. -/
theorem name_probe_failure_false (os : WinOS) (stream : Stream)
    (hin : os.consoleModeOk STD_INPUT = false)
    (hout : os.consoleModeOk STD_OUTPUT = false)
    (herr : os.consoleModeOk STD_ERROR = false)
    (hfail : os.fileNameInfo (handles stream).1 = none) :
    msys_tty_on os (handles stream).1 = some false ∧
      is (Platform.windows os) stream = some false := by
  have h1 : msys_tty_on os (handles stream).1 = some false := by
    simp [msys_tty_on, hfail]
  exact ⟨h1, by rw [is_windows_all_fail os stream hin hout herr, h1]⟩

/-- Witness for C6: all console-mode queries fail and the file-name query
fails too; `is Stdin` is false. -/
theorem name_probe_failure_false_w :
    is (Platform.windows osNoInfo) Stream.Stdin = some false :=
  (name_probe_failure_false osNoInfo Stream.Stdin rfl rfl rfl rfl).2

/-- C7: on a POSIX-like host, `is` returns exactly the boolean result of
`libc::isatty` applied to the stream's fixed standard descriptor
(0 for stdin, 1 for stdout, 2 for stderr): true iff the C call returned
nonzero, so a failing call (returning 0) on a closed or invalid descriptor
yields false, never a crash or propagated error. -/
theorem unix_matches_isatty (os : UnixOS) (stream : Stream) :
    is (Platform.unix os) stream =
      some (decide (os.isatty (fileno stream) ≠ 0)) := by
  show some (is_unix os stream) = _
  rw [is_unix]
  congr 1
  by_cases h : os.isatty (fileno stream) = 0 <;> simp [h]

/-- C8: on the degenerate sandboxed targets — wasm32 and the sgx enclave —
`is` returns false for every stream selector unconditionally; these
platforms carry no OS probe state at all in the model. -/
theorem sandbox_always_false (stream : Stream) :
    is Platform.wasm32 stream = some false ∧
      is Platform.sgx stream = some false :=
  ⟨rfl, rfl⟩

/-- C9: `is` is deterministic in its stream selector and the externally
owned OS state: two calls against the same platform state return identical
results. -/
theorem is_deterministic (p : Platform) (stream : Stream)
    (r1 r2 : Option Bool)
    (h1 : is p stream = r1) (h2 : is p stream = r2) : r1 = r2 :=
  h1.symm.trans h2

/-- Witness for C9: two evaluations of `is` on the sgx platform agree. -/
theorem is_deterministic_w : is Platform.sgx Stream.Stdin = some false :=
  is_deterministic Platform.sgx Stream.Stdin
    (is Platform.sgx Stream.Stdin) (some false) rfl rfl

/-- C10: the markers are matched by unanchored substring containment
anywhere in the lossily UTF-16-decoded name: whenever `"-pty"` and one of
`"msys-"`/`"cygwin-"` occur at any positions — neither as prefix nor as
suffix — the heuristic, reached when all console-mode queries fail,
makes `is` return true. -/
theorem markers_anywhere (os : WinOS) (stream : Stream)
    (info : FILE_NAME_INFO)
    (hin : os.consoleModeOk STD_INPUT = false)
    (hout : os.consoleModeOk STD_OUTPUT = false)
    (herr : os.consoleModeOk STD_ERROR = false)
    (hinfo : os.fileNameInfo (handles stream).1 = some info)
    (hlen : info.FileNameLength ≤ info.FileName.length)
    (hpty : ptyMarker <:+: probedName info)
    (hbridge : msysMarker <:+: probedName info ∨
      cygwinMarker <:+: probedName info) :
    is (Platform.windows os) stream = some true := by
  rw [is_windows_all_fail os stream hin hout herr,
    msys_tty_on_eval os (handles stream).1 info hinfo hlen]
  rcases hbridge with hb | hb <;>
    simp [(containsSeq_iff _ _).mpr hpty, (containsSeq_iff _ _).mpr hb]

set_option maxRecDepth 8192 in
/-- Witness for C10: in `"\cygwin-ab12cd-pty3-to-master"` the `cygwin-`
marker is not a prefix of the name and `-pty` is not a suffix, yet `is`
returns true. -/
theorem markers_anywhere_w :
    is (Platform.windows osCygwinPty) Stream.Stderr = some true :=
  markers_anywhere osCygwinPty Stream.Stderr
    { FileNameLength := cygwinPtyName.length, FileName := cygwinPtyName }
    rfl rfl rfl rfl (by decide) (by decide) (Or.inr (by decide))

end Atty
